import Mathlib

/-!
Verification development for the VitaFlex-AI workout planner
(`com/mhire/app/services/workout_planner/workout_planner.py`).

The Python module is shallowly embedded: every pure computation becomes a
Lean function, the `try`/`except` control flow becomes `Except String`
(the `String` is Python's `str(e)` message), and the external
collaborators (OpenAI chat completion, the Tavily client library, the
direct HTTP transport) become function-valued fields of an `Env` record,
so theorems quantify over every collaborator behaviour.

Character-level remarks: Python `str.strip`/`lstrip` whitespace is
modelled by `Char.isWhitespace` (the inputs of interest are ASCII), and
Python `str.isdigit` by `Char.isDigit` (ASCII digits).
-/

namespace VitaFlex

/-- Modelled from the spec: `workout_planner_schema.py` is not part of the
sources; §3 of the design document describes the eating-style enum only as
"including vegan/vegetarian", so one further constructor stands for all
remaining members. -/
inductive EatingStyle where
  | vegan
  | vegetarian
  | otherStyle
deriving Repr, DecidableEq

/-- Modelled from the spec: consumption-frequency enum; the code only ever
compares against the `NONE` member, the other constructors stand for the
remaining members. -/
inductive ConsumptionFrequency where
  | none
  | occasional
  | regular
deriving Repr, DecidableEq

/-- Serialized value of `PrimaryGoal.BUILD_MUSCLE` (spec §3: `build-muscle`). -/
def PrimaryGoal.BUILD_MUSCLE : String := "build-muscle"

/-- Serialized value of `PrimaryGoal.LOSE_WEIGHT` (spec §3: `lose-weight`). -/
def PrimaryGoal.LOSE_WEIGHT : String := "lose-weight"

/-- Serialized value of `PrimaryGoal.EAT_HEALTHIER` (spec §3: `eat-healthier`). -/
def PrimaryGoal.EAT_HEALTHIER : String := "eat-healthier"

/-- Modelled from the spec: `UserProfileRequest` from the missing schema
module, fields per spec §3.  `primary_goal` is widened from the
three-valued enum to `String` so that profiles with an unrecognized goal
are expressible (the three recognized values are the `PrimaryGoal.*`
constants above); weight and height are only interpolated into the prompt
text, so they are carried as naturals. -/
structure UserProfileRequest where
  primary_goal : String
  weight_kg : Nat
  height_cm : Nat
  eating_style : EatingStyle
  is_meat_eater : Bool
  is_lactose_intolerant : Bool
  allergies : List String
  caffeine_consumption : ConsumptionFrequency
  sugar_consumption : ConsumptionFrequency
deriving Repr, DecidableEq

/-- Modelled from the spec: the `Exercise` record of the missing schema
module (spec §3); `sets` is a Python `int`, always non-negative here. -/
structure Exercise where
  name : String
  sets : Nat
  reps : String
  rest : String
  instructions : String
deriving Repr, DecidableEq

/-- Modelled from the spec: `WorkoutSegment` (spec §3). -/
structure WorkoutSegment where
  motto : String
  exercises : List Exercise
  duration : String
  video_url : Option String
deriving Repr, DecidableEq

/-- Modelled from the spec: `DailyWorkout` (spec §3). -/
structure DailyWorkout where
  day : String
  focus : String
  warm_up : WorkoutSegment
  main_routine : WorkoutSegment
  cool_down : WorkoutSegment
deriving Repr, DecidableEq

/-- Modelled from the spec: `WorkoutResponse` (spec §3). -/
structure WorkoutResponse where
  success : Bool
  workout_plan : List DailyWorkout
  error : Option String
deriving Repr, DecidableEq

/-- The dict built by `_create_workout_structure`; the two optional keys
are only present after the corresponding adjustment. -/
structure WorkoutStructure where
  splits : List String
  intensity : String
  rest : String
  nutrition_note : Option String
  warm_up_duration : Option String
deriving Repr, DecidableEq

/-!
String primitives.  The standard library's `String.splitOn`, `String.trim`
and `String.toLower` are implemented with byte positions and well-founded
recursion and do not reduce inside the kernel, so the Python string
operations are re-implemented here structurally over the character list
of the string (`String.data`); on the ASCII inputs of interest they agree
with Python's semantics.
-/

/-- Character-list prefix test (auxiliary for `strContains`). -/
def leadsWith : List Char → List Char → Bool
  | [], _ => true
  | _ :: _, [] => false
  | a :: as, b :: bs => a == b && leadsWith as bs

/-- Character-list infix test (auxiliary for `strContains`). -/
def occursIn (needle : List Char) : List Char → Bool
  | [] => needle.isEmpty
  | c :: rest => leadsWith needle (c :: rest) || occursIn needle rest

/-- Python `needle in haystack` on strings: substring containment. -/
def strContains (haystack needle : String) : Bool :=
  occursIn needle.data haystack.data

/-- Python `s.startswith(pre)`. -/
def strStarts (s pre : String) : Bool :=
  leadsWith pre.data s.data

/-- Python `s.lower()` (ASCII). -/
def lowerStr (s : String) : String :=
  String.mk (s.data.map Char.toLower)

/-- Python `s.strip()`: drop whitespace from both ends. -/
def trimStr (s : String) : String :=
  String.mk ((((s.data.dropWhile Char.isWhitespace).reverse).dropWhile Char.isWhitespace).reverse)

/-- Python `s.split(sep)` for a one-character separator (the only kind
the code uses: `'\n'`, `'|'`, `':'`); always returns at least one group. -/
def splitChar (sep : Char) : List Char → List (List Char)
  | [] => [[]]
  | c :: rest =>
    let r := splitChar sep rest
    if c == sep then [] :: r
    else
      match r with
      | [] => [[c]]
      | g :: gs => (c :: g) :: gs

/-- `s.split(sep)` wrapped back into strings. -/
def splitStr (sep : Char) (s : String) : List String :=
  (splitChar sep s.data).map String.mk

/-- Python `int(...)` on a (non-empty) decimal-digit string. -/
def digitsToNat (s : String) : Nat :=
  s.data.foldl (fun acc c => acc * 10 + (c.toNat - 48)) 0

/-! ## The response parser (`_parse_workout_response`, lines 306-416) -/

/-- The three keys of the `segments` dict. -/
inductive SegKey where
  | warm_up
  | main_routine
  | cool_down
deriving Repr, DecidableEq

/-- The `segments` dict: one ordered list of exercises per section. -/
structure Segments where
  warm_up : List Exercise
  main_routine : List Exercise
  cool_down : List Exercise
deriving Repr, DecidableEq

def emptySegments : Segments := ⟨[], [], []⟩

/-- `segments[current_section].append(exercise)` (line 386). -/
def appendExercise (seg : Segments) (sec : SegKey) (e : Exercise) : Segments :=
  match sec with
  | SegKey.warm_up => { seg with warm_up := seg.warm_up ++ [e] }
  | SegKey.main_routine => { seg with main_routine := seg.main_routine ++ [e] }
  | SegKey.cool_down => { seg with cool_down := seg.cool_down ++ [e] }

/-- Line 322: `"warm-up:" in lower_line or "warmup:" in lower_line`. -/
def warmHeader (line : String) : Bool :=
  strContains (lowerStr line) "warm-up:" || strContains (lowerStr line) "warmup:"

/-- Line 325: `"main routine:" in lower_line or "main workout:" in lower_line`. -/
def mainHeader (line : String) : Bool :=
  strContains (lowerStr line) "main routine:" || strContains (lowerStr line) "main workout:"

/-- Line 328: `"cool-down:" in lower_line or "cooldown:" in lower_line`. -/
def coolHeader (line : String) : Bool :=
  strContains (lowerStr line) "cool-down:" || strContains (lowerStr line) "cooldown:"

/-- A line whose lower-cased text contains any of the six recognized
section-header phrases. -/
def hasAnyHeader (line : String) : Bool :=
  warmHeader line || mainHeader line || coolHeader line

/-- Line 333: `line.lstrip().startswith(('-', '•', '*'))`. -/
def startsWithBullet (line : String) : Bool :=
  match line.data.dropWhile Char.isWhitespace with
  | [] => false
  | c :: _ => c == '-' || c == '•' || c == '*'

/-- Line 340: `line.lstrip('- •*')` — drop the leading characters drawn
from the four-character set. -/
def stripBullets (line : String) : String :=
  String.mk (line.data.dropWhile fun c => c == '-' || c == ' ' || c == '•' || c == '*')

/-- The `exercise_data` dict of the main-routine branch with its default
values (lines 347-352). -/
structure MainData where
  sets : String
  reps : String
  rest : String
  instructions : String
deriving Repr, DecidableEq

/-- `part.split(':')[-1].strip()` (lines 361, 363). -/
def afterLastColon (part : String) : String :=
  trimStr (String.mk ((splitChar ':' part.data).getLastD []))

/-- One iteration of the `for part in parts[1:]` loop of the main-routine
branch (lines 355-365): lower-case and strip the field, then route it on
the first matching keyword, any field matching no keyword becoming the
instructions text. -/
def mainFieldStep (d : MainData) (part : String) : MainData :=
  let p := trimStr (lowerStr part)
  if strContains p "sets:" then
    let ds := String.mk (p.data.filter Char.isDigit)
    { d with sets := if ds = "" then "3" else ds }
  else if strContains p "reps:" then
    { d with reps := afterLastColon p }
  else if strContains p "rest:" then
    { d with rest := afterLastColon p }
  else
    { d with instructions := p }

/-- Lines 338-384: turn one bullet line of an active section into an
`Exercise`.  `parts` is the pipe-split, per-field-stripped remainder of
the line after bullet stripping; the `"Unnamed Exercise"` default of line
343 is kept even though `split` never returns an empty list. -/
def parseBulletLine (sec : SegKey) (line : String) : Exercise :=
  let parts := (splitStr '|' (stripBullets line)).map trimStr
  let name := match parts with
    | [] => "Unnamed Exercise"
    | p :: _ => trimStr p
  match sec with
  | SegKey.main_routine =>
    let d := parts.tail.foldl mainFieldStep ⟨"3", "10-12", "60s", ""⟩
    ⟨name, digitsToNat d.sets, d.reps, d.rest, d.instructions⟩
  | _ =>
    let instructions := match parts.tail.head? with
      | Option.some i => trimStr i
      | Option.none => "Perform at a comfortable pace"
    ⟨name, 1, "As needed", "None", instructions⟩

/-- The body of the `for line in lines` loop (lines 318-390): header
detection first (the header line is consumed), then the bullet filter,
then — only under an active section cursor — exercise extraction.  The
per-line `except` of lines 387-390 is unreachable in this model: with
ASCII digits the `int` coercion always receives a decimal string. -/
def processLine (st : Segments × Option SegKey) (line : String) :
    Segments × Option SegKey :=
  match st with
  | (seg, cur) =>
    if warmHeader line then (seg, Option.some SegKey.warm_up)
    else if mainHeader line then (seg, Option.some SegKey.main_routine)
    else if coolHeader line then (seg, Option.some SegKey.cool_down)
    else if !startsWithBullet line then (seg, cur)
    else
      match cur with
      | Option.none => (seg, cur)
      | Option.some sec => (appendExercise seg sec (parseBulletLine sec line), Option.some sec)

/-- Join character-list groups with a one-character separator
(auxiliary for `pyTitle`). -/
def joinChar (sep : Char) : List (List Char) → List Char
  | [] => []
  | [g] => g
  | g :: gs => g ++ sep :: joinChar sep gs

/-- Python `str.title()` for the space-separated lower-case inputs at
hand: capitalize the first letter of each word. -/
def pyTitle (s : String) : String :=
  String.mk (joinChar ' ' ((splitChar ' ' s.data).map fun w =>
    match w with
    | [] => []
    | c :: cs => c.toUpper :: cs.map Char.toLower))

/-- The placeholder of lines 395-401: name is
`"Basic " + section.replace('_', ' ').title()`; the `replace` of the
one-character pattern `'_'` is a character map. -/
def placeholderFor (sectionKey : String) : Exercise :=
  ⟨"Basic " ++ pyTitle (String.mk (sectionKey.data.map fun c => if c == '_' then ' ' else c)),
    1, "As needed", "None", "Perform at a comfortable pace"⟩

/-- Lines 392-401: populate any still-empty section with one placeholder. -/
def ensureSections (seg : Segments) : Segments :=
  { warm_up := if seg.warm_up = [] then [placeholderFor "warm_up"] else seg.warm_up
    main_routine := if seg.main_routine = [] then [placeholderFor "main_routine"] else seg.main_routine
    cool_down := if seg.cool_down = [] then [placeholderFor "cool_down"] else seg.cool_down }

/-- Line 316: `[line.strip() for line in content.split('\n') if line.strip()]`. -/
def linesOf (content : String) : List String :=
  ((splitStr '\n' content).map trimStr).filter fun l => l ≠ ""

/-- `_parse_workout_response` (lines 306-416).  Every operation in the
body is total in this model, so the outer `except` of lines 405-416 is
unreachable and the function is pure. -/
def parseWorkoutResponse (content : String) : Segments :=
  ensureSections ((linesOf content).foldl processLine (emptySegments, Option.none)).1

/-! ## The search collaborator (`_search_tavily_video`, `_direct_tavily_api_call`) -/

/-- One entry of the `results` list of a search response; the code reads
`r.get("url", "")`, modelled by a total `url` field. -/
structure SearchResult where
  url : String
deriving Repr, DecidableEq

/-- An `httpx` response as consumed by the code: the status code and the
`results` list of the parsed JSON body. -/
structure HttpResponse where
  status : Nat
  results : List SearchResult
deriving Repr, DecidableEq

/-- The four authentication attempts of `_direct_tavily_api_call`, in
source order.  (In the real requests, attempts made after the second one
also retain the `api_key` body parameter added by the second; the model
distinguishes attempts only by this label.) -/
inductive AuthScheme where
  | bearer
  | bodyParam
  | strippedBearer
  | apiKeyHeader
deriving Repr, DecidableEq

/-- The collaborators and configuration of a `WorkoutPlanner` instance.
`ai` is the OpenAI chat call of `_get_ai_response` (error = raised
exception's message), `clientSearch` the Tavily client-library search
(returning the `results` list), and `http` the direct HTTP POST of
`_direct_tavily_api_call`, keyed by authentication attempt and the query
string sent in the body. -/
structure Env where
  tavily_api_key : String
  ai : String → Except String String
  clientSearch : String → Except String (List SearchResult)
  http : AuthScheme → String → HttpResponse

/-- Lines 122-127 and 203-210: filter the results to those whose URL
contains `"youtube.com"` and take the first match's URL.  (An empty
`results` list skips the block, which is the same as the filter being
empty.) -/
def firstYoutube (results : List SearchResult) : Option String :=
  match results.filter (fun r => strContains r.url "youtube.com") with
  | [] => Option.none
  | v :: _ => Option.some v.url

/-- `_direct_tavily_api_call` (lines 139-220): the key-validity guard,
then up to four authentication attempts, each later one made only when
the current response's status is 401 (the third also requiring the
`"tvly-"` key prefix); the final response is parsed only on status 200.
The surrounding `try` never fires in this model because the transport is
a total function. -/
def directTavilyApiCall (env : Env) (query : String) : Option String :=
  if env.tavily_api_key = "" ∨ env.tavily_api_key.length < 10 then Option.none
  else
    let sentQuery := query ++ " exercise video tutorial demonstration"
    let r1 := env.http AuthScheme.bearer sentQuery
    let r2 := if r1.status = 401 then env.http AuthScheme.bodyParam sentQuery else r1
    let r3 := if r2.status = 401 ∧ strStarts env.tavily_api_key "tvly-" then
        env.http AuthScheme.strippedBearer sentQuery
      else r2
    let r4 := if r3.status = 401 then env.http AuthScheme.apiKeyHeader sentQuery else r3
    if r4.status = 200 then firstYoutube r4.results else Option.none

/-- `_search_tavily_video` (lines 95-137): the key-validity guard, then
the client-library attempt; when the client raises or yields no matching
video, fall through to the direct API call.  The outer `try` returns
`None` on any exception, so the operation is total. -/
def searchTavilyVideo (env : Env) (query : String) : Option String :=
  if env.tavily_api_key = "" ∨ env.tavily_api_key.length < 10 then Option.none
  else
    match env.clientSearch (query ++ " exercise video tutorial demonstration") with
    | Except.ok results =>
      match firstYoutube results with
      | Option.some u => Option.some u
      | Option.none => directTavilyApiCall env query
    | Except.error _ => directTavilyApiCall env query

/-! ## The plan assembler (`generate_workout_plan` and helpers) -/

/-- The `base_structures` lookup of `_create_workout_structure`
(lines 65-83): `base_structures.get(profile.primary_goal)`. -/
def baseStructures (goal : String) : Option WorkoutStructure :=
  if goal = PrimaryGoal.BUILD_MUSCLE then
    Option.some ⟨["Upper Body Push", "Lower Body", "Upper Body Pull"], "High", "60-90s",
      Option.none, Option.none⟩
  else if goal = PrimaryGoal.LOSE_WEIGHT then
    Option.some ⟨["HIIT Cardio", "Full Body Strength", "Metabolic Conditioning"],
      "Moderate-High", "30-45s", Option.none, Option.none⟩
  else if goal = PrimaryGoal.EAT_HEALTHIER then
    Option.some ⟨["Full Body", "Mobility & Flexibility", "Light Cardio"], "Moderate",
      "45-60s", Option.none, Option.none⟩
  else Option.none

/-- Lines 86-87: the dietary adjustment.  When the lookup yielded `None`,
the item assignment `structure["nutrition_note"] = ...` raises a
`TypeError` whose `str` is the message below. -/
def adjustVeg (profile : UserProfileRequest) (st : Option WorkoutStructure) :
    Except String (Option WorkoutStructure) :=
  if profile.eating_style = EatingStyle.vegan ∨ profile.eating_style = EatingStyle.vegetarian then
    match st with
    | Option.none => Except.error "'NoneType' object does not support item assignment"
    | Option.some s =>
      Except.ok (Option.some { s with nutrition_note := Option.some "Include pre-workout protein sources" })
  else Except.ok st

/-- Lines 90-91: the caffeine adjustment, with the same `TypeError` on a
`None` structure. -/
def adjustCaffeine (profile : UserProfileRequest) (st : Option WorkoutStructure) :
    Except String (Option WorkoutStructure) :=
  if profile.caffeine_consumption = ConsumptionFrequency.none then
    match st with
    | Option.none => Except.error "'NoneType' object does not support item assignment"
    | Option.some s =>
      Except.ok (Option.some { s with warm_up_duration := Option.some "15-20 minutes" })
  else Except.ok st

/-- `_create_workout_structure` (lines 63-93): lookup, then the two
conditional adjustments; note that when neither adjustment fires the
function returns the raw lookup result, which may be `None`. -/
def createWorkoutStructure (profile : UserProfileRequest) :
    Except String (Option WorkoutStructure) :=
  match adjustVeg profile (baseStructures profile.primary_goal) with
  | Except.error e => Except.error e
  | Except.ok st1 => adjustCaffeine profile st1

/-- Python `f"{b}"` for a bool. -/
def pyBool (b : Bool) : String := if b then "True" else "False"

/-- `_create_workout_prompt` (lines 278-304). -/
def createWorkoutPrompt (profile : UserProfileRequest) (focus : String) (day : Nat) : String :=
  "Create a detailed " ++ focus ++ " workout for Day " ++ toString day ++ " considering:\n" ++
  "        User Profile:\n" ++
  "        - Primary Goal: " ++ profile.primary_goal ++ "\n" ++
  "        - Weight: " ++ toString profile.weight_kg ++ "kg\n" ++
  "        - Height: " ++ toString profile.height_cm ++ "cm\n" ++
  "        - Diet: " ++ toString (repr profile.eating_style) ++ "\n" ++
  "        - Meat Eater: " ++ pyBool profile.is_meat_eater ++ "\n" ++
  "        - Lactose Intolerant: " ++ pyBool profile.is_lactose_intolerant ++ "\n" ++
  "        - Allergies: " ++ String.intercalate ", " profile.allergies ++ "\n" ++
  "        - Caffeine: " ++ toString (repr profile.caffeine_consumption) ++ "\n" ++
  "        - Sugar: " ++ toString (repr profile.sugar_consumption) ++ "\n\n" ++
  "        Provide the workout plan in this format:\n        ...\n        "

/-- `_generate_daily_workout` (lines 238-276): the completion call (whose
exception is re-raised unchanged by `_get_ai_response` and by the local
`except`), three video searches, parsing, and assembly of the
`DailyWorkout` with its fixed mottos and durations. -/
def generateDailyWorkout (env : Env) (profile : UserProfileRequest) (focus : String)
    (day : Nat) : Except String DailyWorkout :=
  match env.ai (createWorkoutPrompt profile focus day) with
  | Except.error e => Except.error e
  | Except.ok content =>
    let warmUpVideo := searchTavilyVideo env (focus ++ " warm up exercises")
    let mainVideo := searchTavilyVideo env (focus ++ " " ++ profile.primary_goal ++ " workout")
    let coolDownVideo := searchTavilyVideo env (focus ++ " cool down stretches")
    let workoutData := parseWorkoutResponse content
    Except.ok
      { day := "Day " ++ toString day
        focus := focus
        warm_up := ⟨"Keep moving—you've got this.", workoutData.warm_up, "10-15 minutes", warmUpVideo⟩
        main_routine := ⟨"You're doing awesome—keep the energy up.", workoutData.main_routine,
          "30-45 minutes", mainVideo⟩
        cool_down := ⟨"Breathe in peace—breathe out strength.", workoutData.cool_down,
          "10-15 minutes", coolDownVideo⟩ }

/-- `workout_structure["splits"][day_num % len(...)]` (line 46): Python
raises `ZeroDivisionError` on an empty list, else indexes modulo the
length. -/
def pyIndexMod (l : List String) (i : Nat) : Except String String :=
  if h : 0 < l.length then Except.ok (l.get ⟨i % l.length, Nat.mod_lt i h⟩)
  else Except.error "integer division or modulo by zero"

/-- The `for day_num in range(3)` loop of lines 45-48, over the list of
`day_num` values. -/
def genDays (env : Env) (profile : UserProfileRequest) (ws : WorkoutStructure) :
    List Nat → Except String (List DailyWorkout)
  | [] => Except.ok []
  | d :: ds =>
    match pyIndexMod ws.splits d with
    | Except.error e => Except.error e
    | Except.ok focus =>
      match generateDailyWorkout env profile focus (d + 1) with
      | Except.error e => Except.error e
      | Except.ok dw =>
        match genDays env profile ws ds with
        | Except.error e => Except.error e
        | Except.ok rest => Except.ok (dw :: rest)

/-- The `try` body of `generate_workout_plan` (lines 40-54).  When
`_create_workout_structure` returned `None`, the first loop iteration's
`workout_structure["splits"]` raises a `TypeError`; the model raises it
at the same observable point (before any collaborator call). -/
def generateBody (env : Env) (profile : UserProfileRequest) :
    Except String (List DailyWorkout) :=
  match createWorkoutStructure profile with
  | Except.error e => Except.error e
  | Except.ok Option.none => Except.error "'NoneType' object is not subscriptable"
  | Except.ok (Option.some ws) => genDays env profile ws [0, 1, 2]

/-- `generate_workout_plan` (lines 39-61): the body's value on success,
and the `except Exception` failure envelope — `success=False`, empty
plan, `error=str(e)` — on any raised exception. -/
def generateWorkoutPlan (env : Env) (profile : UserProfileRequest) : WorkoutResponse :=
  match generateBody env profile with
  | Except.ok dws => ⟨true, dws, Option.none⟩
  | Except.error e => ⟨false, [], Option.some e⟩

/-! ## Helper lemmas -/

/-- Splitting `hasAnyHeader` into its three disjuncts. -/
theorem hasAnyHeader_false {l : String} (h : hasAnyHeader l = false) :
    warmHeader l = false ∧ mainHeader l = false ∧ coolHeader l = false := by
  simp only [hasAnyHeader, Bool.or_eq_false_iff] at h
  exact ⟨h.1.1, h.1.2, h.2⟩

/-- A line containing no section header leaves a cursor-less parse state
unchanged. -/
theorem processLine_skip_none {seg : Segments} {l : String} (h : hasAnyHeader l = false) :
    processLine (seg, Option.none) l = (seg, Option.none) := by
  obtain ⟨hw, hm, hc⟩ := hasAnyHeader_false h
  unfold processLine
  rw [hw, hm, hc]
  cases hb : startsWithBullet l <;> simp

/-- A header-free document leaves a cursor-less parse state unchanged. -/
theorem foldl_skip_none (seg : Segments) :
    ∀ ls : List String, (∀ l ∈ ls, hasAnyHeader l = false) →
      ls.foldl processLine (seg, Option.none) = (seg, Option.none)
  | [], _ => rfl
  | l :: ls, h => by
    rw [List.foldl_cons, processLine_skip_none (h l (List.mem_cons_self l ls))]
    exact foldl_skip_none seg ls fun x hx => h x (List.mem_cons_of_mem l hx)

/-- `ensureSections` leaves no section empty. -/
theorem ensureSections_nonempty (seg : Segments) :
    (ensureSections seg).warm_up ≠ [] ∧ (ensureSections seg).main_routine ≠ [] ∧
      (ensureSections seg).cool_down ≠ [] := by
  unfold ensureSections
  refine ⟨?_, ?_, ?_⟩ <;> (dsimp only; split <;> simp_all)

/-- The parser never returns an empty section. -/
theorem parse_nonempty (content : String) :
    (parseWorkoutResponse content).warm_up ≠ [] ∧
      (parseWorkoutResponse content).main_routine ≠ [] ∧
      (parseWorkoutResponse content).cool_down ≠ [] := by
  unfold parseWorkoutResponse
  exact ensureSections_nonempty _

/-! ## Claims about the parser -/

/-- C4: parsing an empty string, or any string none of whose (trimmed,
non-empty) lines contains a recognized section header, yields exactly one
placeholder Exercise per section, named "Basic Warm Up", "Basic Main
Routine" and "Basic Cool Down", each with sets=1, reps="As needed",
rest="None", instructions="Perform at a comfortable pace".  (Headers are
detected per line, so a header-free line list is the line-level reading
of "a string containing none of the recognized section headers".) -/
theorem parse_no_header_placeholders :
    parseWorkoutResponse "" =
      ⟨[⟨"Basic Warm Up", 1, "As needed", "None", "Perform at a comfortable pace"⟩],
        [⟨"Basic Main Routine", 1, "As needed", "None", "Perform at a comfortable pace"⟩],
        [⟨"Basic Cool Down", 1, "As needed", "None", "Perform at a comfortable pace"⟩]⟩ ∧
    ∀ content : String, (∀ l ∈ linesOf content, hasAnyHeader l = false) →
      parseWorkoutResponse content =
        ⟨[⟨"Basic Warm Up", 1, "As needed", "None", "Perform at a comfortable pace"⟩],
          [⟨"Basic Main Routine", 1, "As needed", "None", "Perform at a comfortable pace"⟩],
          [⟨"Basic Cool Down", 1, "As needed", "None", "Perform at a comfortable pace"⟩]⟩ := by
  constructor
  · rfl
  · intro content h
    unfold parseWorkoutResponse
    rw [foldl_skip_none emptySegments (linesOf content) h]
    rfl

/-- C4 witness: a document with prose and a bullet but no header. -/
theorem parse_no_header_placeholders_witness :
    parseWorkoutResponse "Here is your plan\n- Squats | Sets: 3" =
      ⟨[⟨"Basic Warm Up", 1, "As needed", "None", "Perform at a comfortable pace"⟩],
        [⟨"Basic Main Routine", 1, "As needed", "None", "Perform at a comfortable pace"⟩],
        [⟨"Basic Cool Down", 1, "As needed", "None", "Perform at a comfortable pace"⟩]⟩ :=
  parse_no_header_placeholders.2 "Here is your plan\n- Squats | Sets: 3" (by decide)

/-- C10: header detection is by case-insensitive substring containment
and precedes the bullet filter: any line whose lower-cased text contains
one of the six header phrases produces no Exercise (the segments are
unchanged) and switches the cursor to the section of the first matching
check (warm-up checked first, then main, then cool-down). -/
theorem header_lines_switch_section :
    ∀ (seg : Segments) (cur : Option SegKey) (line : String),
      (hasAnyHeader line = true → (processLine (seg, cur) line).1 = seg) ∧
      (warmHeader line = true →
        processLine (seg, cur) line = (seg, Option.some SegKey.warm_up)) ∧
      (warmHeader line = false → mainHeader line = true →
        processLine (seg, cur) line = (seg, Option.some SegKey.main_routine)) ∧
      (warmHeader line = false → mainHeader line = false → coolHeader line = true →
        processLine (seg, cur) line = (seg, Option.some SegKey.cool_down)) := by
  intro seg cur line
  refine ⟨?_, ?_, ?_, ?_⟩
  · intro h
    simp only [hasAnyHeader, Bool.or_eq_true] at h
    rcases h with (hw | hm) | hc
    · simp [processLine, hw]
    · cases hw : warmHeader line <;> simp [processLine, hw, hm]
    · cases hw : warmHeader line <;> cases hm : mainHeader line <;>
        simp [processLine, hw, hm, hc]
  · intro hw
    simp [processLine, hw]
  · intro hw hm
    simp [processLine, hw, hm]
  · intro hw hm hc
    simp [processLine, hw, hm, hc]

/-- C10 witness: the bullet line `- warm-up: jog in place` is consumed as
a header, produces no Exercise, and switches the cursor to warm-up. -/
theorem header_lines_switch_section_witness :
    processLine (emptySegments, Option.none) "- warm-up: jog in place" =
      (emptySegments, Option.some SegKey.warm_up) :=
  (header_lines_switch_section emptySegments Option.none "- warm-up: jog in place").2.1
    (by decide)

/-- C5 counterexample: the claim predicts that the main-routine bullet
line `- Push Ups | Sets: abc` (non-numeric sets value) is dropped, which
would leave the section empty and yield the placeholder; instead the code
keeps the line, defaulting sets to 3. -/
theorem malformed_sets_line_kept_cex :
    (parseWorkoutResponse "Main Routine:\n- Push Ups | Sets: abc").main_routine =
      [⟨"Push Ups", 3, "10-12", "60s", ""⟩] ∧
    (parseWorkoutResponse "Main Routine:\n- Push Ups | Sets: abc").main_routine ≠
      [placeholderFor "main_routine"] := by
  exact ⟨by decide, by decide⟩

/-- C5 amended: a main-routine sets field containing no digit characters
does not fail the line; the digit extraction yields nothing, the default
"3" is substituted, and the line still produces an Exercise (with
sets=3), the rest of the parse state being untouched so later lines are
processed unaffected. -/
theorem malformed_sets_defaults_to_three :
    (∀ (d : MainData) (p : String), strContains (trimStr (lowerStr p)) "sets:" = true →
      (trimStr (lowerStr p)).data.filter Char.isDigit = [] →
      mainFieldStep d p = { d with sets := "3" }) ∧
    ∀ seg : Segments,
      processLine (seg, Option.some SegKey.main_routine) "- Push Ups | Sets: abc" =
        ({ seg with main_routine := seg.main_routine ++ [⟨"Push Ups", 3, "10-12", "60s", ""⟩] },
          Option.some SegKey.main_routine) := by
  constructor
  · intro d p h1 h2
    simp [mainFieldStep, h1, h2]
  · intro seg
    rfl

/-- C5 amended witness: the field "Sets: abc" resets the sets value to
the default "3". -/
theorem malformed_sets_defaults_to_three_witness :
    mainFieldStep ⟨"9", "10-12", "60s", ""⟩ "Sets: abc" = ⟨"3", "10-12", "60s", ""⟩ :=
  malformed_sets_defaults_to_three.1 ⟨"9", "10-12", "60s", ""⟩ "Sets: abc" (by decide) (by decide)

/-- C6 counterexample: for the field `Rest: 1:30` the code stores the
text after the LAST colon ("30"), not the text after the first colon
("1:30") as the claim states. -/
theorem reps_rest_last_colon_cex :
    ((parseWorkoutResponse "Main Routine:\n- X | Rest: 1:30").main_routine.map Exercise.rest =
      ["30"]) ∧
    ¬ ((parseWorkoutResponse "Main Routine:\n- X | Rest: 1:30").main_routine.map Exercise.rest =
      ["1:30"]) := by
  exact ⟨by decide, by decide⟩

/-- C6 amended: a main-routine field containing "reps:" (respectively
"rest:") stores as the reps (respectively rest) value the trimmed text
after the LAST `:` of the lower-cased field (each keyword is only
consulted when the earlier keywords are absent); the example line
`- Squats | Sets: 4 | Reps: 8-10 | Rest: 90s | Keep back straight`
parses to Exercise{name="Squats", sets=4, reps="8-10", rest="90s",
instructions="keep back straight"} as claimed. -/
theorem reps_rest_after_last_colon :
    (∀ (d : MainData) (p : String),
      strContains (trimStr (lowerStr p)) "sets:" = false →
      strContains (trimStr (lowerStr p)) "reps:" = true →
      mainFieldStep d p = { d with reps := afterLastColon (trimStr (lowerStr p)) }) ∧
    (∀ (d : MainData) (p : String),
      strContains (trimStr (lowerStr p)) "sets:" = false →
      strContains (trimStr (lowerStr p)) "reps:" = false →
      strContains (trimStr (lowerStr p)) "rest:" = true →
      mainFieldStep d p = { d with rest := afterLastColon (trimStr (lowerStr p)) }) ∧
    (parseWorkoutResponse
        "Main Routine:\n- Squats | Sets: 4 | Reps: 8-10 | Rest: 90s | Keep back straight").main_routine =
      [⟨"Squats", 4, "8-10", "90s", "keep back straight"⟩] := by
  refine ⟨?_, ?_, by decide⟩
  · intro d p h1 h2
    simp [mainFieldStep, h1, h2]
  · intro d p h1 h2 h3
    simp [mainFieldStep, h1, h2, h3]

/-- C6 amended witness: "Reps: 8-10" stores reps "8-10"; "Rest: 1:30"
stores the text after the last colon. -/
theorem reps_rest_after_last_colon_witness :
    mainFieldStep ⟨"3", "10-12", "60s", ""⟩ "Reps: 8-10" = ⟨"3", "8-10", "60s", ""⟩ ∧
    mainFieldStep ⟨"3", "10-12", "60s", ""⟩ "Rest: 1:30" = ⟨"3", "10-12", "30", ""⟩ :=
  ⟨reps_rest_after_last_colon.1 ⟨"3", "10-12", "60s", ""⟩ "Reps: 8-10" (by decide) (by decide),
    reps_rest_after_last_colon.2.1 ⟨"3", "10-12", "60s", ""⟩ "Rest: 1:30" (by decide) (by decide)
      (by decide)⟩

/-- C7 counterexample: the bullet line `- | jog in place` has a
whitespace-only first field; the claim predicts the default name
"Unnamed Exercise", but the code names the Exercise with the empty
string (the split list is never empty, so the default of line 343 is
dead code). -/
theorem empty_name_field_cex :
    ((parseWorkoutResponse "Warm-up:\n- | jog in place").warm_up.map Exercise.name = [""]) ∧
    ¬ ((parseWorkoutResponse "Warm-up:\n- | jog in place").warm_up.map Exercise.name =
      ["Unnamed Exercise"]) := by
  exact ⟨by decide, by decide⟩

/-- C7 amended: a bullet line in an active section whose first
pipe-field trims to the empty string yields an Exercise whose name is
the empty string — the "Unnamed Exercise" default is unreachable because
splitting always returns at least one field. -/
theorem empty_name_field_yields_empty_name :
    (∀ (sec : SegKey) (line rest' : String) (others : List String),
      (splitStr '|' (stripBullets line)).map trimStr = "" :: rest' :: others →
      (parseBulletLine sec line).name = "") ∧
    ∀ seg : Segments,
      processLine (seg, Option.some SegKey.warm_up) "- | jog in place" =
        ({ seg with warm_up := seg.warm_up ++ [⟨"", 1, "As needed", "None", "jog in place"⟩] },
          Option.some SegKey.warm_up) := by
  constructor
  · intro sec line rest' others h
    unfold parseBulletLine
    rw [h]
    cases sec <;> rfl

  · intro seg
    rfl

/-- C7 amended witness: the line `- | jog in place`. -/
theorem empty_name_field_yields_empty_name_witness :
    (parseBulletLine SegKey.warm_up "- | jog in place").name = "" :=
  empty_name_field_yields_empty_name.1 SegKey.warm_up "- | jog in place" "jog in place" []
    (by decide)

/-! ## Claims about the assembler and the search collaborator -/

/-- C1: `generate_workout_plan` is a total function into
`WorkoutResponse` — for every collaborator behaviour (including raising)
and every profile it either returns the success envelope around the try
body's value, or, whenever the flow raises an exception `e`, the failure
envelope `success=false`, empty plan, `error = str(e)`. -/
theorem generate_workout_plan_no_escape :
    ∀ (env : Env) (profile : UserProfileRequest),
      (∃ dws, generateBody env profile = Except.ok dws ∧
        generateWorkoutPlan env profile = ⟨true, dws, Option.none⟩) ∨
      (∃ e, generateBody env profile = Except.error e ∧
        generateWorkoutPlan env profile = ⟨false, [], Option.some e⟩) := by
  intro env profile
  cases h : generateBody env profile with
  | ok dws => exact Or.inl ⟨dws, rfl, by simp [generateWorkoutPlan, h]⟩
  | error e => exact Or.inr ⟨e, rfl, by simp [generateWorkoutPlan, h]⟩

/-- Helper: a successful completion call makes `_generate_daily_workout`
succeed with three non-empty segments. -/
theorem genDay_ok (env : Env) (profile : UserProfileRequest) (focus : String) (day : Nat)
    (hai : ∀ p, ∃ t, env.ai p = Except.ok t) :
    ∃ dw, generateDailyWorkout env profile focus day = Except.ok dw ∧
      dw.warm_up.exercises ≠ [] ∧ dw.main_routine.exercises ≠ [] ∧
      dw.cool_down.exercises ≠ [] := by
  obtain ⟨t, ht⟩ := hai (createWorkoutPrompt profile focus day)
  unfold generateDailyWorkout
  rw [ht]
  exact ⟨_, rfl, (parse_nonempty t).1, (parse_nonempty t).2.1, (parse_nonempty t).2.2⟩

/-- Helper: when the goal lookup succeeds, `_create_workout_structure`
returns a structure with the same splits (the two adjustments only touch
`nutrition_note` and `warm_up_duration`). -/
theorem create_ok_of_base (profile : UserProfileRequest) (b : WorkoutStructure)
    (hb : baseStructures profile.primary_goal = Option.some b) :
    ∃ ws, createWorkoutStructure profile = Except.ok (Option.some ws) ∧
      ws.splits = b.splits := by
  unfold createWorkoutStructure adjustVeg adjustCaffeine
  rw [hb]
  by_cases hv : profile.eating_style = EatingStyle.vegan ∨
      profile.eating_style = EatingStyle.vegetarian <;>
    by_cases hc : profile.caffeine_consumption = ConsumptionFrequency.none <;>
      simp [hv, hc]

/-- Helper: with three resolvable day indices and a succeeding
completion collaborator, the day loop returns exactly three daily
workouts, all with non-empty segments. -/
theorem genDays_ok (env : Env) (profile : UserProfileRequest) (ws : WorkoutStructure)
    (s0 s1 s2 : String)
    (hai : ∀ p, ∃ t, env.ai p = Except.ok t)
    (e0 : pyIndexMod ws.splits 0 = Except.ok s0)
    (e1 : pyIndexMod ws.splits 1 = Except.ok s1)
    (e2 : pyIndexMod ws.splits 2 = Except.ok s2) :
    ∃ dws, genDays env profile ws [0, 1, 2] = Except.ok dws ∧ dws.length = 3 ∧
      ∀ dw ∈ dws, dw.warm_up.exercises ≠ [] ∧ dw.main_routine.exercises ≠ [] ∧
        dw.cool_down.exercises ≠ [] := by
  obtain ⟨dw0, h0, h0w, h0m, h0c⟩ := genDay_ok env profile s0 1 hai
  obtain ⟨dw1, h1, h1w, h1m, h1c⟩ := genDay_ok env profile s1 2 hai
  obtain ⟨dw2, h2, h2w, h2m, h2c⟩ := genDay_ok env profile s2 3 hai
  refine ⟨[dw0, dw1, dw2], ?_, rfl, ?_⟩
  · simp [genDays, e0, e1, e2, h0, h1, h2]
  · intro dw hdw
    simp only [List.mem_cons, List.not_mem_nil, or_false] at hdw
    rcases hdw with h | h | h <;> subst h
    · exact ⟨h0w, h0m, h0c⟩
    · exact ⟨h1w, h1m, h1c⟩
    · exact ⟨h2w, h2m, h2c⟩

/-- C2: for a profile with a recognized primary goal and a succeeding
text-completion collaborator, `generate_workout_plan` returns a success
envelope with exactly 3 daily workouts whose three segments each hold at
least one Exercise; and the parser unconditionally returns three
non-empty sections. -/
theorem generate_success_three_days_nonempty :
    (∀ (env : Env) (profile : UserProfileRequest),
      (profile.primary_goal = PrimaryGoal.BUILD_MUSCLE ∨
        profile.primary_goal = PrimaryGoal.LOSE_WEIGHT ∨
        profile.primary_goal = PrimaryGoal.EAT_HEALTHIER) →
      (∀ p, ∃ t, env.ai p = Except.ok t) →
      ∃ dws, generateWorkoutPlan env profile = ⟨true, dws, Option.none⟩ ∧
        dws.length = 3 ∧
        ∀ dw ∈ dws, dw.warm_up.exercises ≠ [] ∧ dw.main_routine.exercises ≠ [] ∧
          dw.cool_down.exercises ≠ []) ∧
    ∀ content : String,
      (parseWorkoutResponse content).warm_up ≠ [] ∧
      (parseWorkoutResponse content).main_routine ≠ [] ∧
      (parseWorkoutResponse content).cool_down ≠ [] := by
  constructor
  · intro env profile hg hai
    have hb : ∃ b, baseStructures profile.primary_goal = Option.some b ∧
        b.splits.length = 3 := by
      rcases hg with h | h | h <;> rw [h] <;> exact ⟨_, rfl, rfl⟩
    obtain ⟨b, hb, hb3⟩ := hb
    obtain ⟨ws, hws, hsp⟩ := create_ok_of_base profile b hb
    have hlen : 0 < ws.splits.length := by rw [hsp, hb3]; decide
    obtain ⟨dws, hgd, h3, hne⟩ :=
      genDays_ok env profile ws _ _ _ hai (dif_pos hlen) (dif_pos hlen) (dif_pos hlen)
    refine ⟨dws, ?_, h3, hne⟩
    simp [generateWorkoutPlan, generateBody, hws, hgd]
  · exact parse_nonempty

/-- A completion collaborator that always returns one fixed well-formed
plan text, with the search collaborators disabled. -/
def envAI : Env :=
  { tavily_api_key := ""
    ai := fun _ =>
      Except.ok "Warm-up:\n- Jog | easy\nMain Routine:\n- Squats | Sets: 3\nCool-down:\n- Stretch"
    clientSearch := fun _ => Except.error "client down"
    http := fun _ _ => ⟨500, []⟩ }

/-- A build-muscle profile. -/
def profileBM : UserProfileRequest :=
  ⟨PrimaryGoal.BUILD_MUSCLE, 70, 175, EatingStyle.otherStyle, true, false, [],
    ConsumptionFrequency.regular, ConsumptionFrequency.regular⟩

/-- C2 witness: the build-muscle profile with a fixed succeeding
completion collaborator. -/
theorem generate_success_three_days_nonempty_witness :
    ∃ dws, generateWorkoutPlan envAI profileBM = ⟨true, dws, Option.none⟩ ∧
      dws.length = 3 ∧
      ∀ dw ∈ dws, dw.warm_up.exercises ≠ [] ∧ dw.main_routine.exercises ≠ [] ∧
        dw.cool_down.exercises ≠ [] :=
  generate_success_three_days_nonempty.1 envAI profileBM (Or.inl rfl) fun _ => ⟨_, rfl⟩

/-- C3: a profile whose primary goal is none of the three known values
makes the request fail: the response is the failure envelope with a
non-empty error message.  (The lookup yields `None`; either an
adjustment then raises a `TypeError` on item assignment, or the `None`
structure reaches the day loop and raises a `TypeError` on
subscripting.) -/
theorem unrecognized_goal_fails :
    ∀ (env : Env) (profile : UserProfileRequest),
      profile.primary_goal ≠ PrimaryGoal.BUILD_MUSCLE →
      profile.primary_goal ≠ PrimaryGoal.LOSE_WEIGHT →
      profile.primary_goal ≠ PrimaryGoal.EAT_HEALTHIER →
      ∃ e, generateWorkoutPlan env profile = ⟨false, [], Option.some e⟩ ∧ e ≠ "" := by
  intro env profile h1 h2 h3
  have hb : baseStructures profile.primary_goal = Option.none := by
    unfold baseStructures
    rw [if_neg h1, if_neg h2, if_neg h3]
  by_cases hv : profile.eating_style = EatingStyle.vegan ∨
      profile.eating_style = EatingStyle.vegetarian
  · have hcs : createWorkoutStructure profile =
        Except.error "'NoneType' object does not support item assignment" := by
      simp [createWorkoutStructure, adjustVeg, hb, hv]
    refine ⟨"'NoneType' object does not support item assignment", ?_, by decide⟩
    simp [generateWorkoutPlan, generateBody, hcs]
  · by_cases hc : profile.caffeine_consumption = ConsumptionFrequency.none
    · have hcs : createWorkoutStructure profile =
          Except.error "'NoneType' object does not support item assignment" := by
        simp [createWorkoutStructure, adjustVeg, adjustCaffeine, hb, hv, hc]
      refine ⟨"'NoneType' object does not support item assignment", ?_, by decide⟩
      simp [generateWorkoutPlan, generateBody, hcs]
    · have hcs : createWorkoutStructure profile = Except.ok Option.none := by
        simp [createWorkoutStructure, adjustVeg, adjustCaffeine, hb, hv, hc]
      refine ⟨"'NoneType' object is not subscriptable", ?_, by decide⟩
      simp [generateWorkoutPlan, generateBody, hcs]

/-- An environment with no working collaborators. -/
def envPlain : Env :=
  ⟨"", fun _ => Except.error "no model", fun _ => Except.error "no client",
    fun _ _ => ⟨500, []⟩⟩

/-- C3 witness: a profile with the unrecognized goal "general-fitness". -/
theorem unrecognized_goal_fails_witness :
    ∃ e, generateWorkoutPlan envPlain
        ⟨"general-fitness", 70, 175, EatingStyle.otherStyle, true, false, [],
          ConsumptionFrequency.regular, ConsumptionFrequency.regular⟩ =
      ⟨false, [], Option.some e⟩ ∧ e ≠ "" :=
  unrecognized_goal_fails envPlain
    ⟨"general-fitness", 70, 175, EatingStyle.otherStyle, true, false, [],
      ConsumptionFrequency.regular, ConsumptionFrequency.regular⟩
    (by decide) (by decide) (by decide)

/-- C8 amended: the video search returns none immediately — for every
behaviour of the client library and of the HTTP transport — exactly when
the credential is missing or strictly shorter than 10 characters (the
code's guard is `len(...) < 10`, not `<= 10`); a 10-character credential
already proceeds to the collaborators. -/
theorem short_key_returns_none :
    ∀ (env : Env) (q : String), env.tavily_api_key.length < 10 →
      searchTavilyVideo env q = Option.none ∧ directTavilyApiCall env q = Option.none := by
  intro env q h
  constructor
  · unfold searchTavilyVideo
    rw [if_pos (Or.inr h)]
  · unfold directTavilyApiCall
    rw [if_pos (Or.inr h)]

/-- C8 amended witness: a 9-character key yields none although both
collaborators would return a matching video. -/
theorem short_key_returns_none_witness :
    searchTavilyVideo
        ⟨"tvly-1234", fun _ => Except.ok "",
          fun _ => Except.ok [⟨"https://www.youtube.com/watch?v=a"⟩],
          fun _ _ => ⟨200, [⟨"https://www.youtube.com/watch?v=a"⟩]⟩⟩ "squat" = Option.none ∧
    directTavilyApiCall
        ⟨"tvly-1234", fun _ => Except.ok "",
          fun _ => Except.ok [⟨"https://www.youtube.com/watch?v=a"⟩],
          fun _ _ => ⟨200, [⟨"https://www.youtube.com/watch?v=a"⟩]⟩⟩ "squat" = Option.none :=
  short_key_returns_none _ "squat" (by decide)

/-- An environment whose credential has length exactly 10 and whose
client library finds a video. -/
def env10 : Env :=
  ⟨"0123456789", fun _ => Except.error "unused",
    fun _ => Except.ok [⟨"https://www.youtube.com/watch?v=abc"⟩], fun _ _ => ⟨500, []⟩⟩

/-- C8 counterexample: the claim predicts that a credential of length 10
("10 characters or fewer") makes the search return none with zero
collaborator calls; in the code the guard is `len < 10`, so the search
proceeds and returns the client-library result. -/
theorem len_ten_key_proceeds_cex :
    env10.tavily_api_key.length = 10 ∧
    searchTavilyVideo env10 "squat" = Option.some "https://www.youtube.com/watch?v=abc" :=
  ⟨rfl, rfl⟩

/-- Modelled from the spec (claim C9 / spec §4.3): the authentication
cascade as the claim states it — the fixed attempt order, the third
attempt present only for a "tvly-"-prefixed key. -/
def claimAttempts (key : String) : List AuthScheme :=
  [AuthScheme.bearer, AuthScheme.bodyParam] ++
    (if strStarts key "tvly-" then [AuthScheme.strippedBearer] else []) ++
    [AuthScheme.apiKeyHeader]

/-- Modelled from the spec (claim C9 / spec §4.3): run the attempts in
order; a 200 response is parsed with the domain filter, a 401 response
moves to the next attempt, anything else — or running out of attempts —
yields none. -/
def runCascade (h : AuthScheme → HttpResponse) : List AuthScheme → Option String
  | [] => Option.none
  | s :: rest =>
    let r := h s
    if r.status = 200 then firstYoutube r.results
    else if r.status = 401 then runCascade h rest
    else Option.none

/-- C9: with a valid credential, the direct-API fallback behaves exactly
as the claimed cascade: attempts in the order bearer, body-param,
(stripped bearer when "tvly-"-prefixed), api-key header; each later
attempt only after a 401; the first 200 response is parsed with the
domain filter; all-401, a non-200/non-401 status, or no domain match
yield none. -/
theorem auth_cascade_order :
    ∀ (env : Env) (q : String),
      env.tavily_api_key ≠ "" → ¬ env.tavily_api_key.length < 10 →
      directTavilyApiCall env q =
        runCascade (fun s => env.http s (q ++ " exercise video tutorial demonstration"))
          (claimAttempts env.tavily_api_key) := by
  intro env q h1 h2
  unfold directTavilyApiCall claimAttempts
  rw [if_neg (not_or.mpr ⟨h1, h2⟩)]
  by_cases hp : strStarts env.tavily_api_key "tvly-" <;>
    simp only [hp, if_true, if_false] <;>
    by_cases s1 : (env.http AuthScheme.bearer (q ++ " exercise video tutorial demonstration")).status = 401 <;>
    by_cases s2 : (env.http AuthScheme.bodyParam (q ++ " exercise video tutorial demonstration")).status = 401 <;>
    by_cases s3 : (env.http AuthScheme.strippedBearer (q ++ " exercise video tutorial demonstration")).status = 401 <;>
    simp_all [runCascade]

/-- An environment for which the first two attempts are unauthorized and
the third succeeds with a matching video. -/
def envCascade : Env :=
  ⟨"tvly-0123456789", fun _ => Except.error "unused", fun _ => Except.error "client failed",
    fun s _ =>
      match s with
      | AuthScheme.bearer => ⟨401, []⟩
      | AuthScheme.bodyParam => ⟨401, []⟩
      | AuthScheme.strippedBearer => ⟨200, [⟨"https://www.youtube.com/watch?v=3"⟩]⟩
      | AuthScheme.apiKeyHeader => ⟨401, []⟩⟩

/-- C9 witness: the response sequence [401, 401, 200-with-match] yields
the match of the third attempt. -/
theorem auth_cascade_order_witness :
    directTavilyApiCall envCascade "push up" =
      Option.some "https://www.youtube.com/watch?v=3" :=
  (auth_cascade_order envCascade "push up" (by decide) (by decide)).trans (by decide)

end VitaFlex
